import Mathlib

/-!
Verification development for the ingredient service
(`Backend/IngredientServices/routers/ingredients.py`).

The Python module is shallowly embedded: float quantities become rationals
(`ℚ`), the `Ingredients` table becomes a list of records together with the
next generated identifier, each endpoint becomes a function from an abstract
authentication outcome and a database state to a result paired with the
committed database state (an error result leaves the committed state
unchanged, since the handlers raise before `conn.commit()`), and the
`httpx` call inside the token validator becomes a case analysis on an
abstract response type.

SQL Server case-insensitive collation (`Latin1_General_CI_AS`) on the ASCII
names used by the service is modelled by ASCII lowercasing, and Python
`str.lower` on the ASCII unit strings likewise.
-/

/-- ASCII lowercasing of one character (codes 65-90 map to 97-122). -/
def asciiLower (c : Char) : Char :=
  if 65 ≤ c.toNat ∧ c.toNat ≤ 90 then Char.ofNat (c.toNat + 32) else c

/-- ASCII lowercasing of a string; models Python `str.lower` and the
case-insensitive collation on the ASCII strings this service handles. -/
def lowerStr (s : String) : String := ⟨s.data.map asciiLower⟩

/-- The module-level `thresholds` dict: `{"g": 50, "kg": 0.5, "ml": 100, "l": 0.5}`.
`0.5` is the rational `mkRat 1 2`. -/
def thresholds : List (String × ℚ) :=
  [("g", 50), ("kg", mkRat 1 2), ("ml", 100), ("l", mkRat 1 2)]

/-- Python `thresholds.get(key, dflt)`. -/
def thresholdsGet (key : String) (dflt : ℚ) : ℚ :=
  match thresholds.find? (fun p => p.1 == key) with
  | some p => p.2
  | none => dflt

/-- The source function `get_status(amount, measurement)`.
`measurement or ""` maps a missing (`None`) unit to `""`; the unit is
lowercased before the threshold lookup. -/
def get_status (amount : ℚ) (measurement : Option String) : String :=
  let meas_lower := lowerStr (measurement.getD "")
  if amount ≤ 0 then "Not Available"
  else if amount ≤ thresholdsGet meas_lower 1 then "Low Stock"
  else "Available"

/-- A stored row of the `Ingredients` table (the shape of `IngredientOut`).
Dates are opaque and modelled as naturals. -/
structure Ingredient where
  IngredientID : Nat
  IngredientName : String
  Amount : ℚ
  Measurement : String
  BestBeforeDate : Nat
  ExpirationDate : Nat
  Status : String
deriving DecidableEq

/-- The request body of the create endpoint (`IngredientCreate`); it has no
`Status` field. -/
structure IngredientCreate where
  IngredientName : String
  Amount : ℚ
  Measurement : String
  BestBeforeDate : Nat
  ExpirationDate : Nat
deriving DecidableEq

/-- The request body of the update endpoint (`IngredientUpdate`); it has no
`Status` field. -/
structure IngredientUpdate where
  IngredientName : String
  Amount : ℚ
  Measurement : String
  BestBeforeDate : Nat
  ExpirationDate : Nat
deriving DecidableEq

/-- The persistent state: the committed rows of the `Ingredients` table and
the next value of the generated identity column. -/
structure DB where
  rows : List Ingredient
  nextId : Nat
deriving DecidableEq

/-- An `HTTPException(status_code, detail)`. -/
structure HTTPError where
  status_code : Nat
  detail : String
deriving DecidableEq

/-- An apostrophe, as it appears inside the Forbidden detail message. -/
def squote : String := String.singleton (Char.ofNat 39)

/-- Case-insensitive name equality: the model of comparing `IngredientName`
under the `Latin1_General_CI_AS` collation. -/
def ciEq (a b : String) : Bool := lowerStr a == lowerStr b

/-- Outcome of the `httpx` GET to the identity service, as seen by
`validate_token_and_roles`: an HTTP error response with a status code and
an extracted detail text, a transport failure (connection error or
timeout), or a success response whose JSON body resolves `userRole` to an
optional string. -/
inductive AuthResponse where
  | httpError (code : Nat) (body : String)
  | requestError (msg : String)
  | success (userRole : Option String)
deriving DecidableEq

/-- Python interpolation of an `Optional[str]` into an f-string: `None`
prints as `None`. -/
def showRole : Option String → String
  | none => "None"
  | some r => r

/-- The source function `validate_token_and_roles`, as a function of the
identity-service outcome and the allowed-role list. -/
def validate_token_and_roles (resp : AuthResponse) (allowed_roles : List String) :
    Except HTTPError Unit :=
  match resp with
  | .httpError code body =>
      .error ⟨code, "Ingredients Auth service error: " ++ toString code ++ " - " ++ body⟩
  | .requestError msg =>
      .error ⟨503, "Ingredients Auth service unavailable: " ++ msg⟩
  | .success userRole =>
      if (match userRole with
          | some r => allowed_roles.contains r
          | none => false) then
        .ok ()
      else
        .error ⟨403, "Access denied. Required role not met. User has role: "
                       ++ squote ++ showRole userRole ++ squote⟩

/-- The allow-list of the read endpoint. -/
def readRoles : List String := ["admin", "manager", "staff", "cashier"]

/-- The allow-list of the write endpoints. -/
def writeRoles : List String := ["admin", "manager", "staff"]

/-- Database part of `add_ingredient`: the case-insensitive duplicate-name
check, then the insert with computed status returning the inserted row.
On the Conflict path the handler raises before any insert, so the
committed state is unchanged. -/
def add_ingredient_db (db : DB) (ingredient : IngredientCreate) :
    Except HTTPError Ingredient × DB :=
  if db.rows.any (fun r => ciEq r.IngredientName ingredient.IngredientName) then
    (.error ⟨409, "Ingredient name already exists."⟩, db)
  else
    let status_val := get_status ingredient.Amount (some ingredient.Measurement)
    let row : Ingredient :=
      { IngredientID := db.nextId
        IngredientName := ingredient.IngredientName
        Amount := ingredient.Amount
        Measurement := ingredient.Measurement
        BestBeforeDate := ingredient.BestBeforeDate
        ExpirationDate := ingredient.ExpirationDate
        Status := status_val }
    (.ok row, ⟨db.rows ++ [row], db.nextId + 1⟩)

/-- Effect of the `UPDATE ... WHERE IngredientID = ?` statement on one row:
a row with the target id has every listed column overwritten (the id
itself is not in the SET list); any other row is untouched. -/
def update_row (ingredient : IngredientUpdate) (status_val : String) (ingredient_id : Nat)
    (r : Ingredient) : Ingredient :=
  if r.IngredientID = ingredient_id then
    { r with
      IngredientName := ingredient.IngredientName
      Amount := ingredient.Amount
      Measurement := ingredient.Measurement
      BestBeforeDate := ingredient.BestBeforeDate
      ExpirationDate := ingredient.ExpirationDate
      Status := status_val }
  else r

/-- Database part of `update_ingredient`: the duplicate-name check excluding
the target id, the `UPDATE` of every matching row, then the re-select; if
the re-select finds no row the handler raises Not-Found before
`conn.commit()`, so the committed state is unchanged. -/
def update_ingredient_db (db : DB) (ingredient_id : Nat) (ingredient : IngredientUpdate) :
    Except HTTPError Ingredient × DB :=
  if db.rows.any (fun r =>
      ciEq r.IngredientName ingredient.IngredientName && r.IngredientID != ingredient_id) then
    (.error ⟨409, "Ingredient name already exists."⟩, db)
  else
    match (db.rows.map (update_row ingredient
        (get_status ingredient.Amount (some ingredient.Measurement)) ingredient_id)).find?
        (fun r => r.IngredientID == ingredient_id) with
    | none => (.error ⟨404, "Ingredient not found"⟩, db)
    | some row =>
        (.ok row,
         ⟨db.rows.map (update_row ingredient
            (get_status ingredient.Amount (some ingredient.Measurement)) ingredient_id),
          db.nextId⟩)

/-- Database part of `delete_ingredient`: `DELETE ... WHERE IngredientID = ?`
reporting Not-Found exactly when `rowcount` is zero. -/
def delete_ingredient_db (db : DB) (ingredient_id : Nat) :
    Except HTTPError String × DB :=
  if db.rows.countP (fun r => r.IngredientID == ingredient_id) = 0 then
    (.error ⟨404, "Ingredient not found"⟩, db)
  else
    (.ok "Ingredient deleted successfully",
     ⟨db.rows.filter (fun r => r.IngredientID != ingredient_id), db.nextId⟩)

/-- The `GET /` endpoint: validates the token against the read allow-list,
then returns all rows with status code 200. -/
def get_all_ingredients (auth : AuthResponse) (db : DB) :
    Except HTTPError (Nat × List Ingredient) × DB :=
  match validate_token_and_roles auth readRoles with
  | .error e => (.error e, db)
  | .ok _ => (.ok (200, db.rows), db)

/-- The `POST /` endpoint: validates the token against the write allow-list,
then runs the insert logic; a success responds with status code 201. -/
def add_ingredient (auth : AuthResponse) (db : DB) (ingredient : IngredientCreate) :
    Except HTTPError (Nat × Ingredient) × DB :=
  match validate_token_and_roles auth writeRoles with
  | .error e => (.error e, db)
  | .ok _ =>
      match add_ingredient_db db ingredient with
      | (.error e, db1) => (.error e, db1)
      | (.ok row, db1) => (.ok (201, row), db1)

/-- The `PUT /{id}` endpoint: validates the token against the write
allow-list, then runs the update logic; a success responds with 200. -/
def update_ingredient (auth : AuthResponse) (db : DB) (ingredient_id : Nat)
    (ingredient : IngredientUpdate) :
    Except HTTPError (Nat × Ingredient) × DB :=
  match validate_token_and_roles auth writeRoles with
  | .error e => (.error e, db)
  | .ok _ =>
      match update_ingredient_db db ingredient_id ingredient with
      | (.error e, db1) => (.error e, db1)
      | (.ok row, db1) => (.ok (200, row), db1)

/-- The `DELETE /{id}` endpoint: validates the token against the write
allow-list, then runs the delete logic; a success responds with 200. -/
def delete_ingredient (auth : AuthResponse) (db : DB) (ingredient_id : Nat) :
    Except HTTPError (Nat × String) × DB :=
  match validate_token_and_roles auth writeRoles with
  | .error e => (.error e, db)
  | .ok _ =>
      match delete_ingredient_db db ingredient_id with
      | (.error e, db1) => (.error e, db1)
      | (.ok msg, db1) => (.ok (200, msg), db1)

/-- Spec-side threshold table of claim C1: fixed values g:50, kg:0.5, ml:100,
l:0.5, default 1 for unrecognized units, matched case-insensitively. -/
def threshold_spec (unit : String) : ℚ :=
  let u := lowerStr unit
  if u = "g" then 50
  else if u = "kg" then mkRat 1 2
  else if u = "ml" then 100
  else if u = "l" then mkRat 1 2
  else 1

theorem thresholdsGet_eq (s : String) :
    thresholdsGet s 1 =
      (if s = "g" then 50
       else if s = "kg" then mkRat 1 2
       else if s = "ml" then 100
       else if s = "l" then mkRat 1 2
       else (1 : ℚ)) := by
  by_cases hg : s = "g"
  · subst hg; decide
  by_cases hk : s = "kg"
  · subst hk; decide
  by_cases hm : s = "ml"
  · subst hm; decide
  by_cases hl : s = "l"
  · subst hl; decide
  have g1 : ("g" == s) = false := beq_eq_false_iff_ne.mpr (Ne.symm hg)
  have g2 : ("kg" == s) = false := beq_eq_false_iff_ne.mpr (Ne.symm hk)
  have g3 : ("ml" == s) = false := beq_eq_false_iff_ne.mpr (Ne.symm hm)
  have g4 : ("l" == s) = false := beq_eq_false_iff_ne.mpr (Ne.symm hl)
  simp [thresholdsGet, thresholds, List.find?, g1, g2, g3, g4, hg, hk, hm, hl]

/-- C1: the status classifier is the total function of (amount, unit) that
returns "Not Available" when the amount is non-positive, "Low Stock" when
the amount is at most the unit's threshold (table g:50, kg:0.5, ml:100,
l:0.5, default 1, case-insensitive unit match), and "Available" otherwise;
in particular classify(0,"g") = "Not Available", classify(30,"g") =
"Low Stock", classify(30,"kg") = "Available", classify(0.3,"kg") =
"Low Stock", and classify(100,"xyz") = "Available". -/
theorem C1_status_classifier (amount : ℚ) (unit : String) :
    (get_status amount (some unit) =
      if amount ≤ 0 then "Not Available"
      else if amount ≤ threshold_spec unit then "Low Stock"
      else "Available")
    ∧ get_status 0 (some "g") = "Not Available"
    ∧ get_status 30 (some "g") = "Low Stock"
    ∧ get_status 30 (some "kg") = "Available"
    ∧ get_status (mkRat 3 10) (some "kg") = "Low Stock"
    ∧ get_status 100 (some "xyz") = "Available" := by
  refine ⟨?_, by decide, by decide, by decide, by decide, by decide⟩
  simp only [get_status, Option.getD, threshold_spec, thresholdsGet_eq]

/-- C6: when the identity service responds with a non-success status the
validator fails with that same status code and a descriptive message, and
when the identity service is unreachable it fails with 503
Service-Unavailable (in particular never a 500). -/
theorem C6_auth_error_propagation (code : Nat) (body msg : String) (allowed : List String) :
    validate_token_and_roles (.httpError code body) allowed =
      .error ⟨code, "Ingredients Auth service error: " ++ toString code ++ " - " ++ body⟩
    ∧ validate_token_and_roles (.requestError msg) allowed =
      .error ⟨503, "Ingredients Auth service unavailable: " ++ msg⟩
    ∧ ((⟨503, "Ingredients Auth service unavailable: " ++ msg⟩ : HTTPError).status_code ≠ 500) := by
  refine ⟨rfl, rfl, by intro hc; simp at hc⟩

/-- C7: on a successful identity response, a resolved role outside the
allowed set yields a 403 Forbidden whose message names the actual role,
and a role inside the allowed set passes validation. -/
theorem C7_role_gate (role : String) (allowed : List String) :
    (role ∈ allowed → validate_token_and_roles (.success (some role)) allowed = .ok ())
    ∧ (role ∉ allowed → validate_token_and_roles (.success (some role)) allowed =
        .error ⟨403, "Access denied. Required role not met. User has role: "
                       ++ squote ++ role ++ squote⟩) := by
  constructor
  · intro hmem
    simp [validate_token_and_roles, List.elem_iff, hmem]
  · intro hmem
    simp [validate_token_and_roles, List.elem_iff, hmem, showRole]

theorem C7_role_gate_witness :
    validate_token_and_roles (.success (some "admin")) writeRoles = .ok ()
    ∧ validate_token_and_roles (.success (some "cashier")) writeRoles =
        .error ⟨403, "Access denied. Required role not met. User has role: "
                       ++ squote ++ "cashier" ++ squote⟩ :=
  ⟨(C7_role_gate "admin" writeRoles).1 (by decide),
   (C7_role_gate "cashier" writeRoles).2 (by decide)⟩

/-- C10: a successful identity response with a missing or null role resolves
to `None`, which is in no allowed set, so validation fails with a 403 whose
message names role `None`; and the classifier treats a missing unit as the
empty string, falling back to the default threshold 1. -/
theorem C10_null_tolerance (amount : ℚ) (allowed : List String) :
    validate_token_and_roles (.success none) allowed =
      .error ⟨403, "Access denied. Required role not met. User has role: "
                     ++ squote ++ "None" ++ squote⟩
    ∧ get_status amount none =
        (if amount ≤ 0 then "Not Available"
         else if amount ≤ 1 then "Low Stock"
         else "Available") := by
  constructor
  · rfl
  · have h1 : thresholdsGet (lowerStr ((none : Option String).getD "")) 1 = 1 := by decide
    simp only [get_status, h1]

/-- C2: every row written by the create or update path stores as `Status`
exactly the classifier applied to the submitted amount and unit of that
write; the request shapes `IngredientCreate` and `IngredientUpdate` carry
no `Status` field, so the stored value is always the recomputed one. -/
theorem C2_status_recomputed :
    (∀ (db : DB) (inp : IngredientCreate) (row : Ingredient) (db1 : DB),
       add_ingredient_db db inp = (.ok row, db1) →
       row.Status = get_status inp.Amount (some inp.Measurement) ∧ row ∈ db1.rows)
    ∧ (∀ (db : DB) (i : Nat) (upd : IngredientUpdate) (row : Ingredient) (db1 : DB),
       update_ingredient_db db i upd = (.ok row, db1) →
       row.Status = get_status upd.Amount (some upd.Measurement) ∧ row ∈ db1.rows) := by
  constructor
  · intro db inp row db1 h
    rw [add_ingredient_db] at h
    split at h
    · simp at h
    · simp only [Prod.mk.injEq, Except.ok.injEq] at h
      obtain ⟨rfl, rfl⟩ := h
      exact ⟨rfl, by simp⟩
  · intro db i upd row db1 h
    rw [update_ingredient_db] at h
    split at h
    · simp at h
    · cases hfind : (db.rows.map (update_row upd
          (get_status upd.Amount (some upd.Measurement)) i)).find?
          (fun r => r.IngredientID == i) with
      | none => rw [hfind] at h; simp at h
      | some row0 =>
        rw [hfind] at h
        simp only [Prod.mk.injEq, Except.ok.injEq] at h
        obtain ⟨rfl, rfl⟩ := h
        have hmem : row0 ∈ db.rows.map (update_row upd
            (get_status upd.Amount (some upd.Measurement)) i) :=
          List.mem_of_find?_eq_some hfind
        have hp := List.find?_some hfind
        simp only at hp
        refine ⟨?_, hmem⟩
        rw [List.mem_map] at hmem
        obtain ⟨r, hr, hfr⟩ := hmem
        rw [update_row] at hfr
        by_cases hid : r.IngredientID = i
        · rw [if_pos hid] at hfr
          rw [← hfr]
        · rw [if_neg hid] at hfr
          rw [← hfr] at hp
          rw [beq_iff_eq] at hp
          exact absurd hp hid

theorem C2_status_recomputed_witness :
    ((⟨1, "Flour", 30, "g", 0, 0, "Low Stock"⟩ : Ingredient).Status =
        get_status 30 (some "g")
      ∧ (⟨1, "Flour", 30, "g", 0, 0, "Low Stock"⟩ : Ingredient) ∈
          (⟨[⟨1, "Flour", 30, "g", 0, 0, "Low Stock"⟩], 2⟩ : DB).rows)
    ∧ ((⟨1, "Flour", 60, "g", 0, 0, "Available"⟩ : Ingredient).Status =
        get_status 60 (some "g")
      ∧ (⟨1, "Flour", 60, "g", 0, 0, "Available"⟩ : Ingredient) ∈
          (⟨[⟨1, "Flour", 60, "g", 0, 0, "Available"⟩], 2⟩ : DB).rows) :=
  ⟨C2_status_recomputed.1 ⟨[], 1⟩ ⟨"Flour", 30, "g", 0, 0⟩
      ⟨1, "Flour", 30, "g", 0, 0, "Low Stock"⟩
      ⟨[⟨1, "Flour", 30, "g", 0, 0, "Low Stock"⟩], 2⟩ rfl,
   C2_status_recomputed.2 ⟨[⟨1, "Flour", 30, "g", 0, 0, "Low Stock"⟩], 2⟩ 1
      ⟨"Flour", 60, "g", 0, 0⟩
      ⟨1, "Flour", 60, "g", 0, 0, "Available"⟩
      ⟨[⟨1, "Flour", 60, "g", 0, 0, "Available"⟩], 2⟩ rfl⟩

theorem create_conflict_iff (db : DB) (name : String) :
    (db.rows.any fun r => ciEq r.IngredientName name) = true ↔
      ∃ r ∈ db.rows, lowerStr r.IngredientName = lowerStr name := by
  rw [List.any_eq_true]
  simp [ciEq]

/-- C3: a create whose name matches an existing record case-insensitively
fails with 409 Conflict and leaves the table unchanged; otherwise the
record is inserted with the generated identifier and classifier-computed
status, and returned with status code 201. -/
theorem C3_create_conflict_or_insert (auth : AuthResponse) (db : DB) (inp : IngredientCreate)
    (hauth : validate_token_and_roles auth writeRoles = .ok ()) :
    ((∃ r ∈ db.rows, lowerStr r.IngredientName = lowerStr inp.IngredientName) →
      add_ingredient auth db inp = (.error ⟨409, "Ingredient name already exists."⟩, db))
    ∧ ((∀ r ∈ db.rows, lowerStr r.IngredientName ≠ lowerStr inp.IngredientName) →
      add_ingredient auth db inp =
        (.ok (201, ⟨db.nextId, inp.IngredientName, inp.Amount, inp.Measurement,
            inp.BestBeforeDate, inp.ExpirationDate,
            get_status inp.Amount (some inp.Measurement)⟩),
         ⟨db.rows ++ [⟨db.nextId, inp.IngredientName, inp.Amount, inp.Measurement,
            inp.BestBeforeDate, inp.ExpirationDate,
            get_status inp.Amount (some inp.Measurement)⟩], db.nextId + 1⟩)) := by
  constructor
  · intro hex
    have hc : (db.rows.any fun r => ciEq r.IngredientName inp.IngredientName) = true :=
      (create_conflict_iff db inp.IngredientName).mpr hex
    simp only [add_ingredient, hauth, add_ingredient_db, hc, if_true]
  · intro hall
    have hc : (db.rows.any fun r => ciEq r.IngredientName inp.IngredientName) = false := by
      rw [List.any_eq_false]
      intro r hr
      simp only [ciEq, beq_iff_eq]
      exact hall r hr
    simp only [add_ingredient, hauth, add_ingredient_db, hc, Bool.false_eq_true,
      if_false]

theorem C3_create_witness :
    add_ingredient (.success (some "admin"))
        ⟨[⟨1, "Flour", 30, "g", 0, 0, "Low Stock"⟩], 2⟩ ⟨"flour", 5, "g", 0, 0⟩ =
      (.error ⟨409, "Ingredient name already exists."⟩,
       ⟨[⟨1, "Flour", 30, "g", 0, 0, "Low Stock"⟩], 2⟩)
    ∧ add_ingredient (.success (some "admin"))
        ⟨[⟨1, "Flour", 30, "g", 0, 0, "Low Stock"⟩], 2⟩ ⟨"Sugar", 30, "g", 0, 0⟩ =
      (.ok (201, ⟨2, "Sugar", 30, "g", 0, 0, "Low Stock"⟩),
       ⟨[⟨1, "Flour", 30, "g", 0, 0, "Low Stock"⟩,
         ⟨2, "Sugar", 30, "g", 0, 0, "Low Stock"⟩], 3⟩) :=
  ⟨(C3_create_conflict_or_insert (.success (some "admin"))
      ⟨[⟨1, "Flour", 30, "g", 0, 0, "Low Stock"⟩], 2⟩ ⟨"flour", 5, "g", 0, 0⟩ rfl).1
      (by decide),
   (C3_create_conflict_or_insert (.success (some "admin"))
      ⟨[⟨1, "Flour", 30, "g", 0, 0, "Low Stock"⟩], 2⟩ ⟨"Sugar", 30, "g", 0, 0⟩ rfl).2
      (by decide)⟩

/-- C9: an update that fails (Conflict or Not-Found) commits nothing, since
the handler raises before `conn.commit()`, so the persisted table is
unchanged; likewise a create that fails with Conflict raises before the
insert. -/
theorem C9_failed_write_no_mutation :
    (∀ (db : DB) (i : Nat) (upd : IngredientUpdate) (e : HTTPError) (db1 : DB),
       update_ingredient_db db i upd = (.error e, db1) → db1 = db)
    ∧ (∀ (db : DB) (inp : IngredientCreate) (e : HTTPError) (db1 : DB),
       add_ingredient_db db inp = (.error e, db1) → db1 = db) := by
  constructor
  · intro db i upd e db1 h
    rw [update_ingredient_db] at h
    split at h
    · simp only [Prod.mk.injEq] at h
      exact h.2.symm
    · cases hfind : (db.rows.map (update_row upd
          (get_status upd.Amount (some upd.Measurement)) i)).find?
          (fun r => r.IngredientID == i) with
      | none =>
        rw [hfind] at h
        simp only [Prod.mk.injEq] at h
        exact h.2.symm
      | some row0 =>
        rw [hfind] at h
        simp at h
  · intro db inp e db1 h
    rw [add_ingredient_db] at h
    split at h
    · simp only [Prod.mk.injEq] at h
      exact h.2.symm
    · simp at h

theorem C9_failed_write_witness :
    ((⟨[⟨1, "Flour", 30, "g", 0, 0, "Low Stock"⟩], 2⟩ : DB) =
      ⟨[⟨1, "Flour", 30, "g", 0, 0, "Low Stock"⟩], 2⟩)
    ∧ ((⟨[⟨1, "Flour", 30, "g", 0, 0, "Low Stock"⟩], 2⟩ : DB) =
      ⟨[⟨1, "Flour", 30, "g", 0, 0, "Low Stock"⟩], 2⟩) :=
  ⟨C9_failed_write_no_mutation.1 ⟨[⟨1, "Flour", 30, "g", 0, 0, "Low Stock"⟩], 2⟩ 7
      ⟨"flour", 5, "g", 0, 0⟩ ⟨409, "Ingredient name already exists."⟩
      ⟨[⟨1, "Flour", 30, "g", 0, 0, "Low Stock"⟩], 2⟩ rfl,
   C9_failed_write_no_mutation.2 ⟨[⟨1, "Flour", 30, "g", 0, 0, "Low Stock"⟩], 2⟩
      ⟨"FLOUR", 5, "g", 0, 0⟩ ⟨409, "Ingredient name already exists."⟩
      ⟨[⟨1, "Flour", 30, "g", 0, 0, "Low Stock"⟩], 2⟩ rfl⟩

/-- C5: delete removes the row with the given id and fails with 404
Not-Found exactly when no row was affected; deleting a nonexistent id
yields Not-Found, and after a successful delete a second delete of the
same id also yields Not-Found. -/
theorem C5_delete_semantics (db : DB) (i : Nat) :
    ((∀ r ∈ db.rows, r.IngredientID ≠ i) →
       delete_ingredient_db db i = (.error ⟨404, "Ingredient not found"⟩, db))
    ∧ ((∃ r ∈ db.rows, r.IngredientID = i) →
       delete_ingredient_db db i =
         (.ok "Ingredient deleted successfully",
          ⟨db.rows.filter (fun r => r.IngredientID != i), db.nextId⟩)
       ∧ delete_ingredient_db ⟨db.rows.filter (fun r => r.IngredientID != i), db.nextId⟩ i =
         (.error ⟨404, "Ingredient not found"⟩,
          ⟨db.rows.filter (fun r => r.IngredientID != i), db.nextId⟩)) := by
  have hzero : ∀ (l : List Ingredient), (∀ r ∈ l, r.IngredientID ≠ i) →
      l.countP (fun r => r.IngredientID == i) = 0 := by
    intro l hall
    rw [List.countP_eq_zero]
    intro r hr
    simp only [beq_iff_eq]
    exact hall r hr
  constructor
  · intro hall
    rw [delete_ingredient_db, if_pos (hzero db.rows hall)]
  · intro hex
    have hne : db.rows.countP (fun r => r.IngredientID == i) ≠ 0 := by
      rw [Ne, List.countP_eq_zero]
      intro hall
      obtain ⟨r, hr, he⟩ := hex
      exact absurd (by simpa using hall r hr) (by simp [he])
    constructor
    · rw [delete_ingredient_db, if_neg hne]
    · have hall2 : ∀ r ∈ db.rows.filter (fun r => r.IngredientID != i),
          r.IngredientID ≠ i := by
        intro r hr
        have := List.of_mem_filter hr
        simpa using this
      rw [delete_ingredient_db, if_pos (hzero _ hall2)]

theorem C5_delete_witness :
    delete_ingredient_db ⟨[⟨1, "Flour", 30, "g", 0, 0, "Low Stock"⟩], 2⟩ 9 =
      (.error ⟨404, "Ingredient not found"⟩,
       ⟨[⟨1, "Flour", 30, "g", 0, 0, "Low Stock"⟩], 2⟩)
    ∧ (delete_ingredient_db ⟨[⟨1, "Flour", 30, "g", 0, 0, "Low Stock"⟩], 2⟩ 1 =
        (.ok "Ingredient deleted successfully",
         ⟨([⟨1, "Flour", 30, "g", 0, 0, "Low Stock"⟩] : List Ingredient).filter
            (fun r => r.IngredientID != 1), 2⟩)
      ∧ delete_ingredient_db
          ⟨([⟨1, "Flour", 30, "g", 0, 0, "Low Stock"⟩] : List Ingredient).filter
            (fun r => r.IngredientID != 1), 2⟩ 1 =
        (.error ⟨404, "Ingredient not found"⟩,
         ⟨([⟨1, "Flour", 30, "g", 0, 0, "Low Stock"⟩] : List Ingredient).filter
            (fun r => r.IngredientID != 1), 2⟩)) :=
  ⟨(C5_delete_semantics ⟨[⟨1, "Flour", 30, "g", 0, 0, "Low Stock"⟩], 2⟩ 9).1 (by decide),
   (C5_delete_semantics ⟨[⟨1, "Flour", 30, "g", 0, 0, "Low Stock"⟩], 2⟩ 1).2 (by decide)⟩

theorem update_row_id (upd : IngredientUpdate) (sv : String) (i : Nat) (r : Ingredient) :
    (update_row upd sv i r).IngredientID = r.IngredientID := by
  rw [update_row]
  split <;> rfl

theorem update_conflict_iff (db : DB) (i : Nat) (upd : IngredientUpdate) :
    (db.rows.any fun r =>
        ciEq r.IngredientName upd.IngredientName && r.IngredientID != i) = true ↔
      ∃ r ∈ db.rows,
        lowerStr r.IngredientName = lowerStr upd.IngredientName ∧ r.IngredientID ≠ i := by
  rw [List.any_eq_true]
  simp [ciEq]

/-- C4: an update whose submitted name matches a different record
case-insensitively fails with 409 Conflict and leaves the table unchanged;
absent such a clash, if the target id does not exist the update fails with
404 Not-Found leaving the table unchanged, and if it exists every field is
overwritten with the submitted values, the status is recomputed by the
classifier, and the updated record is returned with status code 200; in
particular updating a record's name to its own current name succeeds. -/
theorem C4_update_semantics (auth : AuthResponse) (db : DB) (i : Nat) (upd : IngredientUpdate)
    (hauth : validate_token_and_roles auth writeRoles = .ok ()) :
    ((∃ r ∈ db.rows,
        lowerStr r.IngredientName = lowerStr upd.IngredientName ∧ r.IngredientID ≠ i) →
       update_ingredient auth db i upd = (.error ⟨409, "Ingredient name already exists."⟩, db))
    ∧ ((∀ r ∈ db.rows, lowerStr r.IngredientName = lowerStr upd.IngredientName →
          r.IngredientID = i) →
        ((∀ r ∈ db.rows, r.IngredientID ≠ i) →
           update_ingredient auth db i upd = (.error ⟨404, "Ingredient not found"⟩, db))
        ∧ ((∃ r ∈ db.rows, r.IngredientID = i) →
           ∃ row, update_ingredient auth db i upd =
               (.ok (200, row),
                ⟨db.rows.map (update_row upd
                   (get_status upd.Amount (some upd.Measurement)) i), db.nextId⟩)
             ∧ row.IngredientID = i
             ∧ row.IngredientName = upd.IngredientName
             ∧ row.Amount = upd.Amount
             ∧ row.Measurement = upd.Measurement
             ∧ row.BestBeforeDate = upd.BestBeforeDate
             ∧ row.ExpirationDate = upd.ExpirationDate
             ∧ row.Status = get_status upd.Amount (some upd.Measurement)))
    ∧ (∀ r ∈ db.rows, r.IngredientID = i → upd.IngredientName = r.IngredientName →
        (∀ r2 ∈ db.rows, lowerStr r2.IngredientName = lowerStr r.IngredientName →
          r2.IngredientID = i) →
        ∃ row db1, update_ingredient auth db i upd = (.ok (200, row), db1)) := by
  have main : (∀ r ∈ db.rows, lowerStr r.IngredientName = lowerStr upd.IngredientName →
          r.IngredientID = i) →
        ((∀ r ∈ db.rows, r.IngredientID ≠ i) →
           update_ingredient auth db i upd = (.error ⟨404, "Ingredient not found"⟩, db))
        ∧ ((∃ r ∈ db.rows, r.IngredientID = i) →
           ∃ row, update_ingredient auth db i upd =
               (.ok (200, row),
                ⟨db.rows.map (update_row upd
                   (get_status upd.Amount (some upd.Measurement)) i), db.nextId⟩)
             ∧ row.IngredientID = i
             ∧ row.IngredientName = upd.IngredientName
             ∧ row.Amount = upd.Amount
             ∧ row.Measurement = upd.Measurement
             ∧ row.BestBeforeDate = upd.BestBeforeDate
             ∧ row.ExpirationDate = upd.ExpirationDate
             ∧ row.Status = get_status upd.Amount (some upd.Measurement)) := by
    intro hnoclash
    have hc : (db.rows.any fun r =>
        ciEq r.IngredientName upd.IngredientName && r.IngredientID != i) = false := by
      rw [← Bool.not_eq_true, update_conflict_iff]
      rintro ⟨r, hr, hname, hid⟩
      exact hid (hnoclash r hr hname)
    constructor
    · intro hall
      have hfind : (db.rows.map (update_row upd
          (get_status upd.Amount (some upd.Measurement)) i)).find?
          (fun r => r.IngredientID == i) = none := by
        rw [List.find?_eq_none]
        intro x hx
        rw [List.mem_map] at hx
        obtain ⟨r, hr, rfl⟩ := hx
        simp only [update_row_id, beq_iff_eq]
        exact hall r hr
      simp only [update_ingredient, hauth, update_ingredient_db, hc, Bool.false_eq_true,
        if_false, hfind]
    · intro hex
      cases hfind : (db.rows.map (update_row upd
          (get_status upd.Amount (some upd.Measurement)) i)).find?
          (fun r => r.IngredientID == i) with
      | none =>
        exfalso
        obtain ⟨r, hr, hid⟩ := hex
        have := List.find?_eq_none.mp hfind (update_row upd
            (get_status upd.Amount (some upd.Measurement)) i r)
            (List.mem_map_of_mem _ hr)
        rw [update_row_id] at this
        simp [hid] at this
      | some row0 =>
        have hmem : row0 ∈ db.rows.map (update_row upd
            (get_status upd.Amount (some upd.Measurement)) i) :=
          List.mem_of_find?_eq_some hfind
        have hp := List.find?_some hfind
        simp only at hp
        rw [beq_iff_eq] at hp
        rw [List.mem_map] at hmem
        obtain ⟨r, hr, hfr⟩ := hmem
        have hrow : row0 = update_row upd
            (get_status upd.Amount (some upd.Measurement)) i r := hfr.symm
        by_cases hid : r.IngredientID = i
        · refine ⟨row0, ?_, hp, ?_, ?_, ?_, ?_, ?_, ?_⟩
          · simp only [update_ingredient, hauth, update_ingredient_db, hc,
              Bool.false_eq_true, if_false, hfind]
          all_goals rw [hrow, update_row, if_pos hid]
        · exfalso
          rw [hrow, update_row_id] at hp
          exact hid hp
  refine ⟨?_, main, ?_⟩
  · intro hex
    have hc := (update_conflict_iff db i upd).mpr hex
    simp only [update_ingredient, hauth, update_ingredient_db, hc, if_true]
  · intro r hr hid hname huniq
    have hnoclash : ∀ r2 ∈ db.rows,
        lowerStr r2.IngredientName = lowerStr upd.IngredientName → r2.IngredientID = i := by
      intro r2 hr2 he
      exact huniq r2 hr2 (by rw [he, hname])
    obtain ⟨row, heq, _⟩ := (main hnoclash).2 ⟨r, hr, hid⟩
    exact ⟨row, _, heq⟩

theorem C4_update_witness :
    update_ingredient (.success (some "admin"))
        ⟨[⟨1, "Flour", 30, "g", 0, 0, "Low Stock"⟩,
          ⟨2, "Sugar", 40, "g", 0, 0, "Low Stock"⟩], 3⟩ 1 ⟨"sugar", 5, "g", 0, 0⟩ =
      (.error ⟨409, "Ingredient name already exists."⟩,
       ⟨[⟨1, "Flour", 30, "g", 0, 0, "Low Stock"⟩,
         ⟨2, "Sugar", 40, "g", 0, 0, "Low Stock"⟩], 3⟩)
    ∧ update_ingredient (.success (some "admin"))
        ⟨[⟨1, "Flour", 30, "g", 0, 0, "Low Stock"⟩,
          ⟨2, "Sugar", 40, "g", 0, 0, "Low Stock"⟩], 3⟩ 9 ⟨"Pepper", 5, "g", 0, 0⟩ =
      (.error ⟨404, "Ingredient not found"⟩,
       ⟨[⟨1, "Flour", 30, "g", 0, 0, "Low Stock"⟩,
         ⟨2, "Sugar", 40, "g", 0, 0, "Low Stock"⟩], 3⟩)
    ∧ (∃ row db1, update_ingredient (.success (some "admin"))
        ⟨[⟨1, "Flour", 30, "g", 0, 0, "Low Stock"⟩,
          ⟨2, "Sugar", 40, "g", 0, 0, "Low Stock"⟩], 3⟩ 1 ⟨"Flour", 60, "g", 0, 0⟩ =
        (.ok (200, row), db1)) :=
  ⟨(C4_update_semantics (.success (some "admin"))
      ⟨[⟨1, "Flour", 30, "g", 0, 0, "Low Stock"⟩,
        ⟨2, "Sugar", 40, "g", 0, 0, "Low Stock"⟩], 3⟩ 1 ⟨"sugar", 5, "g", 0, 0⟩ rfl).1
      (by decide),
   ((C4_update_semantics (.success (some "admin"))
      ⟨[⟨1, "Flour", 30, "g", 0, 0, "Low Stock"⟩,
        ⟨2, "Sugar", 40, "g", 0, 0, "Low Stock"⟩], 3⟩ 9 ⟨"Pepper", 5, "g", 0, 0⟩ rfl).2.1
      (by decide)).1 (by decide),
   (C4_update_semantics (.success (some "admin"))
      ⟨[⟨1, "Flour", 30, "g", 0, 0, "Low Stock"⟩,
        ⟨2, "Sugar", 40, "g", 0, 0, "Low Stock"⟩], 3⟩ 1 ⟨"Flour", 60, "g", 0, 0⟩ rfl).2.2
      ⟨1, "Flour", 30, "g", 0, 0, "Low Stock"⟩ (by decide) (by decide) rfl (by decide)⟩

/-- C8: every endpoint invokes the token validator first — the list endpoint
with allow-list admin/manager/staff/cashier and the write endpoints with
admin/manager/staff — and a validation error is returned as-is with the
database untouched; a cashier can therefore list ingredients, while every
cashier write request fails with 403 Forbidden. -/
theorem C8_auth_gating :
    readRoles = ["admin", "manager", "staff", "cashier"]
    ∧ writeRoles = ["admin", "manager", "staff"]
    ∧ (∀ (auth : AuthResponse) (db : DB) (e : HTTPError),
        validate_token_and_roles auth readRoles = .error e →
        get_all_ingredients auth db = (.error e, db))
    ∧ (∀ (auth : AuthResponse) (db : DB) (inp : IngredientCreate) (e : HTTPError),
        validate_token_and_roles auth writeRoles = .error e →
        add_ingredient auth db inp = (.error e, db))
    ∧ (∀ (auth : AuthResponse) (db : DB) (i : Nat) (upd : IngredientUpdate) (e : HTTPError),
        validate_token_and_roles auth writeRoles = .error e →
        update_ingredient auth db i upd = (.error e, db))
    ∧ (∀ (auth : AuthResponse) (db : DB) (i : Nat) (e : HTTPError),
        validate_token_and_roles auth writeRoles = .error e →
        delete_ingredient auth db i = (.error e, db))
    ∧ (∀ db : DB, get_all_ingredients (.success (some "cashier")) db = (.ok (200, db.rows), db))
    ∧ (∀ (db : DB) (inp : IngredientCreate),
        add_ingredient (.success (some "cashier")) db inp =
          (.error ⟨403, "Access denied. Required role not met. User has role: "
                          ++ squote ++ "cashier" ++ squote⟩, db))
    ∧ (∀ (db : DB) (i : Nat) (upd : IngredientUpdate),
        update_ingredient (.success (some "cashier")) db i upd =
          (.error ⟨403, "Access denied. Required role not met. User has role: "
                          ++ squote ++ "cashier" ++ squote⟩, db))
    ∧ (∀ (db : DB) (i : Nat),
        delete_ingredient (.success (some "cashier")) db i =
          (.error ⟨403, "Access denied. Required role not met. User has role: "
                          ++ squote ++ "cashier" ++ squote⟩, db)) := by
  refine ⟨rfl, rfl, ?_, ?_, ?_, ?_, ?_, ?_, ?_, ?_⟩
  · intro auth db e h
    simp only [get_all_ingredients, h]
  · intro auth db inp e h
    simp only [add_ingredient, h]
  · intro auth db i upd e h
    simp only [update_ingredient, h]
  · intro auth db i e h
    simp only [delete_ingredient, h]
  · intro db
    rfl
  · intro db inp
    rfl
  · intro db i upd
    rfl
  · intro db i
    rfl

theorem C8_auth_gating_witness :
    get_all_ingredients (.httpError 401 "invalid token") ⟨[], 1⟩ =
      (.error ⟨401, "Ingredients Auth service error: " ++ toString 401
                      ++ " - " ++ "invalid token"⟩, ⟨[], 1⟩)
    ∧ add_ingredient (.httpError 401 "invalid token") ⟨[], 1⟩ ⟨"Flour", 30, "g", 0, 0⟩ =
      (.error ⟨401, "Ingredients Auth service error: " ++ toString 401
                      ++ " - " ++ "invalid token"⟩, ⟨[], 1⟩)
    ∧ update_ingredient (.requestError "timeout") ⟨[], 1⟩ 1 ⟨"Flour", 30, "g", 0, 0⟩ =
      (.error ⟨503, "Ingredients Auth service unavailable: " ++ "timeout"⟩, ⟨[], 1⟩)
    ∧ delete_ingredient (.requestError "timeout") ⟨[], 1⟩ 1 =
      (.error ⟨503, "Ingredients Auth service unavailable: " ++ "timeout"⟩, ⟨[], 1⟩) :=
  ⟨C8_auth_gating.2.2.1 (.httpError 401 "invalid token") ⟨[], 1⟩ _ rfl,
   C8_auth_gating.2.2.2.1 (.httpError 401 "invalid token") ⟨[], 1⟩ ⟨"Flour", 30, "g", 0, 0⟩ _ rfl,
   C8_auth_gating.2.2.2.2.1 (.requestError "timeout") ⟨[], 1⟩ 1 ⟨"Flour", 30, "g", 0, 0⟩ _ rfl,
   C8_auth_gating.2.2.2.2.2.1 (.requestError "timeout") ⟨[], 1⟩ 1 _ rfl⟩
